import Mathlib

/-!
Verification of the ScholarTrack academic score tracker: a shallow embedding
of its data model (src/unnamed/part_000), store handlers and derived-metric
computations (src/App.tsx), and the insight-service wrapper
(src/unnamed/part_001), together with theorems settling the spec's claims.
JS numbers are modelled as rationals, JS `Math.round` as floor of x + 1/2
(halves toward positive infinity, as in JS).
-/

namespace ScholarTrack

/-- Mirrors interface `Score` (src/unnamed/part_000, lines 1-8): one graded
assessment. `value` and `max` are JS numbers, modelled as rationals; `date` is
the `YYYY-MM-DD` string produced by the date input. -/
structure Score where
  id : String
  title : String
  value : ℚ
  max : ℚ
  date : String
  notes : Option String
  deriving DecidableEq

/-- Mirrors interface `Subject` (src/unnamed/part_000, lines 10-15): a named
topic owning an ordered list of scores. -/
structure Subject where
  id : String
  name : String
  color : String
  scores : List Score
  deriving DecidableEq

/-- Mirrors type `ViewState` (src/unnamed/part_000, lines 17-19): dashboard or
a single-subject detail view. -/
inductive ViewState where
  | dashboard : ViewState
  | subject : String → ViewState
  deriving DecidableEq

/-- Mirrors interface `AIInsight` (src/unnamed/part_000, lines 21-25); the
sentiment union of string literals is modelled as a string. -/
structure AIInsight where
  analysis : String
  tips : List String
  sentiment : String
  deriving DecidableEq

/-- Mirrors `SUBJECT_COLORS` (src/unnamed/part_000, lines 27-36). -/
def SUBJECT_COLORS : List String :=
  ["bg-blue-500", "bg-emerald-500", "bg-violet-500", "bg-rose-500",
   "bg-amber-500", "bg-cyan-500", "bg-fuchsia-500", "bg-indigo-500"]

/-- JS `Math.round`: nearest integer, halves toward positive infinity. -/
def jsRound (q : ℚ) : ℤ := ⌊q + 1/2⌋

/-- Mirrors `calculateSubjectAverage` (src/App.tsx, lines 150-155): 0 for an
empty score list, otherwise the rounded percentage of summed values over
summed maxima, guarded to 0 when the summed maxima are not positive. -/
def calculateSubjectAverage (subject : Subject) : ℤ :=
  if subject.scores.length = 0 then 0
  else
    let totalMax : ℚ := subject.scores.foldl (fun sum s => sum + s.max) 0
    let totalScore : ℚ := subject.scores.foldl (fun sum s => sum + s.value) 0
    if 0 < totalMax then jsRound (totalScore / totalMax * 100) else 0

/-- Mirrors the `overallAverage` computed view (src/App.tsx, lines 157-162):
0 when no subject has scores, otherwise the rounded mean of the per-subject
averages of the subjects that have scores. -/
def overallAverage (subjects : List Subject) : ℤ :=
  let subjectsWithScores := subjects.filter (fun s => s.scores.length > 0)
  if subjectsWithScores.length = 0 then 0
  else
    let sumAverages : ℤ :=
      subjectsWithScores.foldl (fun sum s => sum + calculateSubjectAverage s) 0
    jsRound ((sumAverages : ℚ) / (subjectsWithScores.length : ℚ))

/-- Spec formula for the subject average, following the spec's words: 0 on an
empty score list, else round of 100 times the summed values over the summed
maxima. -/
def subjectAverageSpec (subject : Subject) : ℤ :=
  if subject.scores = [] then 0
  else jsRound (100 * (subject.scores.map Score.value).sum / (subject.scores.map Score.max).sum)

/-- Spec formula for the overall average, following the spec's words: the
rounded mean of the per-subject averages taken over exactly the subjects whose
score list is non-empty, and 0 when there is no such subject. -/
def overallAverageSpec (subjects : List Subject) : ℤ :=
  let scored := subjects.filter (fun s => s.scores ≠ [])
  if scored = [] then 0
  else jsRound (((scored.map calculateSubjectAverage).sum : ℚ) / (scored.length : ℚ))

/-- A left fold accumulating `f` over a list is the initial value plus the sum
of the mapped list; bridges the JS `reduce` translation to `List.sum`. -/
theorem foldl_add_eq {α : Type} {M : Type} [AddCommMonoid M] (f : α → M)
    (l : List α) (init : M) :
    l.foldl (fun sum x => sum + f x) init = init + (l.map f).sum := by
  induction l generalizing init with
  | nil => simp
  | cons x xs ih => rw [List.foldl_cons, ih, List.map_cons, List.sum_cons, add_assoc]

/-- The example subject of the spec: "Math" with scores 80 of 100 and
45 of 50. -/
def mathSubject : Subject :=
  { id := "math", name := "Math", color := "bg-blue-500",
    scores :=
      [{ id := "sc1", title := "Test 1", value := 80, max := 100,
         date := "2024-01-10", notes := none },
       { id := "sc2", title := "Test 2", value := 45, max := 50,
         date := "2024-02-10", notes := none }] }

/-- C1: for every subject whose scores respect the documented invariant
`max > 0`, the subject average is 0 on an empty score list and otherwise
round(100 x sum of values / sum of maxima); in particular the "Math" subject
with scores 80/100 and 45/50 has average 83. -/
theorem calculateSubjectAverage_correct :
    (∀ subject : Subject, (∀ sc ∈ subject.scores, 0 < sc.max) →
      calculateSubjectAverage subject = subjectAverageSpec subject) ∧
    calculateSubjectAverage mathSubject = 83 := by
  constructor
  · intro subject h
    unfold calculateSubjectAverage subjectAverageSpec
    rcases eq_or_ne subject.scores [] with he | he
    · simp [he]
    · have hlen : ¬subject.scores.length = 0 := by
        simpa [List.length_eq_zero] using he
      have hpos : 0 < (subject.scores.map Score.max).sum := by
        refine List.sum_pos _ ?_ (by simpa using he)
        intro x hx
        obtain ⟨sc, hsc, rfl⟩ := List.mem_map.mp hx
        exact h sc hsc
      rw [if_neg hlen, if_neg he]
      simp only [foldl_add_eq, zero_add]
      rw [if_pos hpos]
      congr 1
      field_simp
      ring
  · norm_num [calculateSubjectAverage, mathSubject, jsRound]

/-- C1 witness: the main part of `calculateSubjectAverage_correct`
instantiated at the concrete "Math" subject, with the positivity hypothesis
discharged by evaluation. -/
theorem calculateSubjectAverage_correct_witness :
    calculateSubjectAverage mathSubject = subjectAverageSpec mathSubject :=
  calculateSubjectAverage_correct.1 mathSubject (by decide)

/-- Mapping a function that fixes every member of a list leaves the list
unchanged. -/
theorem map_eq_self_of_forall {α : Type} (f : α → α) (l : List α)
    (h : ∀ x ∈ l, f x = x) : l.map f = l := by
  induction l with
  | nil => rfl
  | cons x xs ih =>
    rw [List.map_cons, h x (List.mem_cons_self x xs),
      ih (fun y hy => h y (List.mem_cons_of_mem x hy))]

/-- The example subjects of the spec for the overall average: one subject
averaging 80, one averaging 60, one with no scores. -/
def exampleSubjects : List Subject :=
  [{ id := "a", name := "A", color := "bg-blue-500",
     scores := [{ id := "a1", title := "T", value := 80, max := 100,
                  date := "2024-01-01", notes := none }] },
   { id := "b", name := "B", color := "bg-emerald-500",
     scores := [{ id := "b1", title := "T", value := 60, max := 100,
                  date := "2024-01-02", notes := none }] },
   { id := "c", name := "C", color := "bg-violet-500", scores := [] }]

/-- C2: the overall average is 0 when no subject has scores and otherwise the
rounded mean of the per-subject averages over exactly the subjects with a
non-empty score list; in particular subjects averaging 80 and 60 plus one
subject without scores yield 70. -/
theorem overallAverage_correct :
    (∀ subjects : List Subject, overallAverage subjects = overallAverageSpec subjects) ∧
    overallAverage exampleSubjects = 70 := by
  constructor
  · intro subjects
    unfold overallAverage overallAverageSpec
    have hfilter : subjects.filter (fun s => s.scores.length > 0)
        = subjects.filter (fun s => s.scores ≠ []) := by
      refine List.filter_congr ?_
      intro s _
      rw [decide_eq_decide]
      exact List.length_pos
    rw [hfilter]
    rcases eq_or_ne (subjects.filter (fun s => s.scores ≠ [])) [] with he | he
    · rw [he]
      simp
    · have hlen : ¬(subjects.filter (fun s => s.scores ≠ [])).length = 0 := by
        simpa [List.length_eq_zero] using he
      rw [if_neg hlen, if_neg he]
      simp only [foldl_add_eq, zero_add]
  · norm_num [overallAverage, exampleSubjects, calculateSubjectAverage, jsRound]

/-- C2 witness: the main part of `overallAverage_correct` instantiated at the
concrete example subject list. -/
theorem overallAverage_correct_witness :
    overallAverage exampleSubjects = overallAverageSpec exampleSubjects :=
  overallAverage_correct.1 exampleSubjects

/-- The mutable state the App component's handlers read and write: the subject
list (`subjects` state, src/App.tsx line 59) and the view selector (`view`
state, line 64). -/
structure AppState where
  subjects : List Subject
  view : ViewState
  deriving DecidableEq

/-- JS `String.prototype.trim`, modelled on the character list: whitespace
stripped from both ends. -/
def jsTrim (s : String) : String :=
  String.mk (((s.data.dropWhile Char.isWhitespace).reverse.dropWhile
    Char.isWhitespace).reverse)

/-- Mirrors `handleAddSubject` (src/App.tsx, lines 81-94); `newId` stands for
the generated `crypto.randomUUID()`. A blank (empty after trim) name aborts
the handler before any state change; otherwise a subject with the next
palette color and an empty score list is appended. -/
def handleAddSubject (name newId : String) (st : AppState) : AppState :=
  if jsTrim name = "" then st
  else
    let color := SUBJECT_COLORS.getD (st.subjects.length % SUBJECT_COLORS.length) ""
    let newSubject : Subject := { id := newId, name := name, color := color, scores := [] }
    { st with subjects := st.subjects ++ [newSubject] }

/-- Mirrors `handleDeleteSubject` (src/App.tsx, lines 96-103); `confirmed` is
the outcome of the `confirm` dialog. On confirmation the subject with the
given id is filtered out and, when the detail view showed that id, the view
returns to the dashboard. -/
def handleDeleteSubject (confirmed : Bool) (id : String) (st : AppState) : AppState :=
  if confirmed then
    { subjects := st.subjects.filter (fun s => s.id ≠ id),
      view :=
        match st.view with
        | ViewState.subject sid => if sid = id then ViewState.dashboard else st.view
        | _ => st.view }
  else st

/-- The `newScore` form state, mirroring `Partial<Score>` (src/App.tsx,
line 72): every field may be absent. -/
structure ScoreForm where
  title : Option String
  value : Option ℚ
  max : Option ℚ
  date : Option String
  notes : Option String

/-- The date stored with a new score (src/App.tsx, line 115): the form's date,
or `today` when the form's date is absent or empty (JS falsiness of
`newScore.date`). -/
def formDate (form : ScoreForm) (today : String) : String :=
  match form.date with
  | some d => if d = "" then today else d
  | none => today

/-- Mirrors `handleAddScore` (src/App.tsx, lines 105-128); `newId` stands for
`crypto.randomUUID()` and `today` for the current ISO date. The handler aborts
when no subject detail view is active, when the title is absent or empty
(falsy), or when the value or max is absent; otherwise the new score is
appended to the score list of every subject whose id is the active one. -/
def handleAddScore (form : ScoreForm) (newId today : String) (st : AppState) : AppState :=
  match st.view with
  | ViewState.dashboard => st
  | ViewState.subject subjectId =>
    match form.title, form.value, form.max with
    | some t, some v, some m =>
      if t = "" then st
      else
        let score : Score :=
          { id := newId, title := t, value := v, max := m,
            date := formDate form today, notes := form.notes }
        { st with subjects := st.subjects.map (fun s =>
            if s.id = subjectId then { s with scores := s.scores ++ [score] } else s) }
    | _, _, _ => st

/-- Mirrors `handleDeleteScore` (src/App.tsx, lines 130-137): in the subject
with the given id, the score with the given score id is filtered out. -/
def handleDeleteScore (subjectId scoreId : String) (st : AppState) : AppState :=
  { st with subjects := st.subjects.map (fun s =>
      if s.id = subjectId then
        { s with scores := s.scores.filter (fun sc => sc.id ≠ scoreId) }
      else s) }

/-- C5: confirmed deletion of a subject removes every subject carrying that id
(with its scores) and keeps exactly the other subjects, and when the detail
view showed that id the view returns to the dashboard. -/
theorem handleDeleteSubject_correct (id : String) (st : AppState) :
    (∀ s ∈ (handleDeleteSubject true id st).subjects, s.id ≠ id ∧ s ∈ st.subjects) ∧
    (∀ s ∈ st.subjects, s.id ≠ id → s ∈ (handleDeleteSubject true id st).subjects) ∧
    (st.view = ViewState.subject id →
      (handleDeleteSubject true id st).view = ViewState.dashboard) := by
  unfold handleDeleteSubject
  rw [if_pos rfl]
  refine ⟨?_, ?_, ?_⟩
  · intro s hs
    rw [List.mem_filter] at hs
    exact ⟨by simpa using hs.2, hs.1⟩
  · intro s hs hne
    rw [List.mem_filter]
    exact ⟨hs, by simpa using hne⟩
  · intro hv
    rw [hv]
    simp

/-- A concrete state whose detail view shows subject "a". -/
def detailStateA : AppState :=
  { subjects := exampleSubjects, view := ViewState.subject "a" }

/-- A concrete state showing the dashboard over the example subjects. -/
def dashboardState : AppState :=
  { subjects := exampleSubjects, view := ViewState.dashboard }

/-- A concrete empty store state. -/
def emptyState : AppState :=
  { subjects := [], view := ViewState.dashboard }

/-- C5 witness: `handleDeleteSubject_correct` at a concrete state whose detail
view shows the deleted subject. -/
theorem handleDeleteSubject_correct_witness :
    (∀ s ∈ (handleDeleteSubject true "a" detailStateA).subjects,
      s.id ≠ "a" ∧ s ∈ detailStateA.subjects) ∧
    (∀ s ∈ detailStateA.subjects, s.id ≠ "a" →
      s ∈ (handleDeleteSubject true "a" detailStateA).subjects) ∧
    (detailStateA.view = ViewState.subject "a" →
      (handleDeleteSubject true "a" detailStateA).view = ViewState.dashboard) :=
  handleDeleteSubject_correct "a" detailStateA

/-- C7: adding a subject with a non-blank name appends exactly one subject,
with the given id and name, the palette color at index count mod palette
length, and an empty score list, leaving the existing subjects and the view
unchanged. -/
theorem handleAddSubject_adds (name newId : String) (st : AppState)
    (h : jsTrim name ≠ "") :
    ∃ s' : Subject,
      (handleAddSubject name newId st).subjects = st.subjects ++ [s'] ∧
      s'.id = newId ∧ s'.name = name ∧
      s'.color = SUBJECT_COLORS.getD (st.subjects.length % SUBJECT_COLORS.length) "" ∧
      s'.scores = [] ∧
      (handleAddSubject name newId st).view = st.view := by
  refine ⟨{ id := newId, name := name,
            color := SUBJECT_COLORS.getD (st.subjects.length % SUBJECT_COLORS.length) "",
            scores := [] }, ?_⟩
  unfold handleAddSubject
  rw [if_neg h]
  exact ⟨rfl, rfl, rfl, rfl, rfl, rfl⟩

/-- C7 witness: `handleAddSubject_adds` at a concrete fresh store, the
non-blank-name hypothesis discharged by evaluation. -/
theorem handleAddSubject_adds_witness :
    ∃ s' : Subject,
      (handleAddSubject "Math" "u1" emptyState).subjects = emptyState.subjects ++ [s'] ∧
      s'.id = "u1" ∧ s'.name = "Math" ∧
      s'.color = SUBJECT_COLORS.getD (emptyState.subjects.length % SUBJECT_COLORS.length) "" ∧
      s'.scores = [] ∧
      (handleAddSubject "Math" "u1" emptyState).view = emptyState.view :=
  handleAddSubject_adds "Math" "u1" emptyState (by decide)

/-- C8: adding a subject with a blank (empty or whitespace-only) name leaves
the state unchanged. -/
theorem handleAddSubject_blank (name newId : String) (st : AppState)
    (h : jsTrim name = "") :
    handleAddSubject name newId st = st := by
  unfold handleAddSubject
  rw [if_pos h]

/-- C8 witness: `handleAddSubject_blank` at a whitespace-only name and a
concrete store, the blankness hypothesis discharged by evaluation. -/
theorem handleAddSubject_blank_witness :
    handleAddSubject "   " "u2" dashboardState = dashboardState :=
  handleAddSubject_blank "   " "u2" dashboardState (by decide)

/-- C9: with a subject detail view active and a complete form, adding a score
keeps the subject count and the view, appends the new score at the end of the
score list of each subject at a position whose id is the active one (keeping
its id, name and color), and leaves every subject with a different id
untouched. -/
theorem handleAddScore_frame (form : ScoreForm) (newId today : String) (st : AppState)
    (sid t : String) (v m : ℚ)
    (hview : st.view = ViewState.subject sid)
    (htitle : form.title = some t) (ht : ¬t = "")
    (hvalue : form.value = some v) (hmax : form.max = some m) :
    ∃ sc : Score,
      (handleAddScore form newId today st).subjects.length = st.subjects.length ∧
      (handleAddScore form newId today st).view = st.view ∧
      ∀ i (hi : i < st.subjects.length)
          (hi2 : i < (handleAddScore form newId today st).subjects.length),
        ((st.subjects.get ⟨i, hi⟩).id = sid →
          ((handleAddScore form newId today st).subjects.get ⟨i, hi2⟩).id
              = (st.subjects.get ⟨i, hi⟩).id ∧
          ((handleAddScore form newId today st).subjects.get ⟨i, hi2⟩).name
              = (st.subjects.get ⟨i, hi⟩).name ∧
          ((handleAddScore form newId today st).subjects.get ⟨i, hi2⟩).color
              = (st.subjects.get ⟨i, hi⟩).color ∧
          ((handleAddScore form newId today st).subjects.get ⟨i, hi2⟩).scores
              = (st.subjects.get ⟨i, hi⟩).scores ++ [sc]) ∧
        (¬(st.subjects.get ⟨i, hi⟩).id = sid →
          (handleAddScore form newId today st).subjects.get ⟨i, hi2⟩
              = st.subjects.get ⟨i, hi⟩) := by
  refine ⟨{ id := newId, title := t, value := v, max := m,
            date := formDate form today, notes := form.notes }, ?_⟩
  have hstep : handleAddScore form newId today st =
      { st with subjects := st.subjects.map (fun s =>
          if s.id = sid then
            { s with scores := s.scores ++
                [{ id := newId, title := t, value := v, max := m,
                   date := formDate form today, notes := form.notes }] }
          else s) } := by
    unfold handleAddScore
    rw [hview, htitle, hvalue, hmax]
    simp only [if_neg ht]
  rw [hstep]
  refine ⟨by simp, rfl, ?_⟩
  intro i hi hi2
  constructor
  · intro hid
    simp only [List.get_eq_getElem] at hid
    simp only [List.get_eq_getElem, List.getElem_map]
    rw [if_pos hid]
    exact ⟨rfl, rfl, rfl, rfl⟩
  · intro hid
    simp only [List.get_eq_getElem] at hid
    simp only [List.get_eq_getElem, List.getElem_map]
    rw [if_neg hid]

/-- A concrete, completely filled score form. -/
def quizForm : ScoreForm :=
  { title := some "Quiz", value := some 8, max := some 10,
    date := some "2024-05-01", notes := none }

/-- C9 witness: `handleAddScore_frame` at a concrete two-subject state whose
detail view shows subject "a", with a complete concrete form. -/
theorem handleAddScore_frame_witness :
    ∃ sc : Score,
      (handleAddScore quizForm "q1" "2024-06-01" detailStateA).subjects.length
          = detailStateA.subjects.length ∧
      (handleAddScore quizForm "q1" "2024-06-01" detailStateA).view = detailStateA.view ∧
      ∀ i (hi : i < detailStateA.subjects.length)
          (hi2 : i < (handleAddScore quizForm "q1" "2024-06-01" detailStateA).subjects.length),
        ((detailStateA.subjects.get ⟨i, hi⟩).id = "a" →
          ((handleAddScore quizForm "q1" "2024-06-01" detailStateA).subjects.get ⟨i, hi2⟩).id
              = (detailStateA.subjects.get ⟨i, hi⟩).id ∧
          ((handleAddScore quizForm "q1" "2024-06-01" detailStateA).subjects.get ⟨i, hi2⟩).name
              = (detailStateA.subjects.get ⟨i, hi⟩).name ∧
          ((handleAddScore quizForm "q1" "2024-06-01" detailStateA).subjects.get ⟨i, hi2⟩).color
              = (detailStateA.subjects.get ⟨i, hi⟩).color ∧
          ((handleAddScore quizForm "q1" "2024-06-01" detailStateA).subjects.get ⟨i, hi2⟩).scores
              = (detailStateA.subjects.get ⟨i, hi⟩).scores ++ [sc]) ∧
        (¬(detailStateA.subjects.get ⟨i, hi⟩).id = "a" →
          (handleAddScore quizForm "q1" "2024-06-01" detailStateA).subjects.get ⟨i, hi2⟩
              = detailStateA.subjects.get ⟨i, hi⟩) :=
  handleAddScore_frame quizForm "q1" "2024-06-01" detailStateA "a" "Quiz" 8 10
    rfl rfl (by decide) rfl rfl

/-- C10: deleting with an identifier that is not present is a no-op on the
subject list: a confirmed subject deletion for an id no subject carries keeps
the subject list, and a score deletion whose subject/score pair matches no
existing score keeps the whole state. -/
theorem handleDelete_missing_noop (id subjectId scoreId : String) (st : AppState)
    (h1 : ∀ s ∈ st.subjects, ¬s.id = id)
    (h2 : ∀ s ∈ st.subjects, s.id = subjectId → ∀ sc ∈ s.scores, ¬sc.id = scoreId) :
    (handleDeleteSubject true id st).subjects = st.subjects ∧
    handleDeleteScore subjectId scoreId st = st := by
  constructor
  · unfold handleDeleteSubject
    rw [if_pos rfl]
    refine List.filter_eq_self.mpr ?_
    intro s hs
    simpa using h1 s hs
  · unfold handleDeleteScore
    have hmap : st.subjects.map (fun s =>
        if s.id = subjectId then
          { s with scores := s.scores.filter (fun sc => sc.id ≠ scoreId) }
        else s) = st.subjects := by
      refine map_eq_self_of_forall _ _ ?_
      intro s hs
      rcases eq_or_ne s.id subjectId with hid | hid
      · rw [if_pos hid]
        have : s.scores.filter (fun sc => sc.id ≠ scoreId) = s.scores := by
          refine List.filter_eq_self.mpr ?_
          intro sc hsc
          simpa using h2 s hs hid sc hsc
        rw [this]
      · rw [if_neg hid]
    rw [hmap]

/-- Digit string to number, for the components of a `YYYY-MM-DD` date. -/
def digitsToNat (cs : List Char) : Nat :=
  cs.foldl (fun n c => n * 10 + (c.toNat - Char.toNat (Char.ofNat 48))) 0

/-- Order-isomorphic model of `new Date(s).getTime()` on the `YYYY-MM-DD`
strings the date input produces: the key year * 10000 + month * 100 + day is
larger exactly for later calendar dates, matching the order of the epoch
timestamps the code compares. -/
def parseISODate (s : String) : ℤ :=
  let cs := s.data
  (digitsToNat (cs.take 4) : ℤ) * 10000 + (digitsToNat ((cs.drop 5).take 2) : ℤ) * 100
    + (digitsToNat ((cs.drop 8).take 2) : ℤ)

/-- Mirrors the score list rendered by `renderSubjectDetail` (src/App.tsx,
lines 322-323): a copy of the subject's scores sorted by the comparator
`(a, b) => new Date(b.date).getTime() - new Date(a.date).getTime()`; a pair is
kept in order when the second date is not newer than the first. JS
`Array.prototype.sort` is stable, as is `List.mergeSort`. -/
def renderScoreList (subject : Subject) : List Score :=
  subject.scores.mergeSort (fun a b => decide (parseISODate b.date ≤ parseISODate a.date))

/-- C6: for every subject (hence every insertion order of its scores), the
score list rendered in the detail view is ordered newest date first and is a
permutation of the stored scores. -/
theorem renderScoreList_sorted (subject : Subject) :
    List.Pairwise (fun a b : Score => parseISODate b.date ≤ parseISODate a.date)
      (renderScoreList subject) ∧
    (renderScoreList subject).Perm subject.scores := by
  constructor
  · have htrans : ∀ a b c : Score,
        (fun a b : Score => decide (parseISODate b.date ≤ parseISODate a.date)) a b = true →
        (fun a b : Score => decide (parseISODate b.date ≤ parseISODate a.date)) b c = true →
        (fun a b : Score => decide (parseISODate b.date ≤ parseISODate a.date)) a c = true := by
      intro a b c hab hbc
      simp only [decide_eq_true_eq] at *
      exact le_trans hbc hab
    have htotal : ∀ a b : Score,
        ((fun a b : Score => decide (parseISODate b.date ≤ parseISODate a.date)) a b ||
         (fun a b : Score => decide (parseISODate b.date ≤ parseISODate a.date)) b a) = true := by
      intro a b
      simp only [Bool.or_eq_true, decide_eq_true_eq]
      exact le_total (parseISODate b.date) (parseISODate a.date)
    have hs := List.sorted_mergeSort htrans htotal subject.scores
    refine hs.imp ?_
    intro a b h
    simpa using h
  · exact List.mergeSort_perm subject.scores _

/-- C10 witness: `handleDelete_missing_noop` at the concrete dashboard state
with identifiers carried by no subject and no score. -/
theorem handleDelete_missing_noop_witness :
    (handleDeleteSubject true "zz" dashboardState).subjects = dashboardState.subjects ∧
    handleDeleteScore "a" "zz" dashboardState = dashboardState :=
  handleDelete_missing_noop "zz" "a" "zz" dashboardState (by decide) (by decide)

/-- The fixed insight returned when no API key is configured
(src/unnamed/part_001, lines 8-14). -/
def keyMissingInsight : AIInsight :=
  { analysis := "API Key not configured. Please check your environment settings.",
    tips := ["Configure API Key to see insights."],
    sentiment := "neutral" }

/-- The fixed placeholder insight returned when no subject has scores
(src/unnamed/part_001, lines 27-33). -/
def noDataInsight : AIInsight :=
  { analysis := "No data available yet. Add some subjects and scores to get started!",
    tips := ["Add a subject like \x27Mathematics\x27 or \x27History\x27.",
             "Log your latest quiz results."],
    sentiment := "neutral" }

/-- The fixed fallback insight returned from the catch block
(src/unnamed/part_001, lines 75-82). -/
def fallbackInsight : AIInsight :=
  { analysis := "Sorry, I couldn\x27t analyze your data at the moment. Please try again later.",
    tips := ["Check your internet connection.", "Ensure your API key is valid."],
    sentiment := "neutral" }

/-- One score of the compact per-subject summary sent to the external service
(src/unnamed/part_001, lines 65-70). -/
structure ScoreSummary where
  title : String
  score : ℚ
  max : ℚ
  date : String
  deriving DecidableEq

/-- The compact per-subject summary sent to the external service
(src/unnamed/part_001, lines 63-71). -/
structure SubjectSummary where
  name : String
  scores : List ScoreSummary
  deriving DecidableEq

/-- Mirrors the `activeSubjects` computation (src/unnamed/part_001,
lines 63-71): the subjects with at least one score, mapped to name plus score
summaries. -/
def activeSubjects (subjects : List Subject) : List SubjectSummary :=
  (subjects.filter (fun s => s.scores.length > 0)).map (fun s =>
    { name := s.name,
      scores := s.scores.map (fun sc =>
        { title := sc.title, score := sc.value, max := sc.max, date := sc.date }) })

/-- Outcome of the single external generate-content call together with the
reply parser: `Except.error` models a thrown network error, `Except.ok none` a
reply whose text is absent, `Except.ok (some t)` a reply with text `t`;
`parse` models `JSON.parse`, with `none` for a throw on unparsable text. -/
structure GenEnv where
  response : Except Unit (Option String)
  parse : String → Option AIInsight

/-- Mirrors `generateAcademicInsight` (src/unnamed/part_001, lines 7-82). The
returned flag records whether the external request was issued. With no API key
the key-missing insight is returned before anything else; with no scored
subject the placeholder is returned; otherwise the call is issued and a thrown
error, an absent or empty reply text (falsy, raising inside the `try`), or an
unparsable reply lands in the catch, yielding the fallback insight. -/
def generateAcademicInsight (apiKey : String) (subjects : List Subject) (env : GenEnv) :
    AIInsight × Bool :=
  if apiKey = "" then (keyMissingInsight, false)
  else if (activeSubjects subjects).length = 0 then (noDataInsight, false)
  else
    match env.response with
    | Except.error _ => (fallbackInsight, true)
    | Except.ok none => (fallbackInsight, true)
    | Except.ok (some text) =>
      if text = "" then (fallbackInsight, true)
      else
        match env.parse text with
        | none => (fallbackInsight, true)
        | some insight => (insight, true)

/-- The external request failed: the call threw, or the reply text is absent
or empty, or the reply text does not parse. -/
def envFails (env : GenEnv) : Prop :=
  env.response = Except.error () ∨ env.response = Except.ok none ∨
    ∃ t, env.response = Except.ok (some t) ∧ (t = "" ∨ env.parse t = none)

/-- A concrete failing environment: the external call throws. -/
def errorEnv : GenEnv :=
  { response := Except.error (), parse := fun _ => none }

/-- A concrete subject with no scores. -/
def emptySubjectC : Subject :=
  { id := "e", name := "Empty", color := "bg-rose-500", scores := [] }

/-- C3 counterexample: with the credential unconfigured and an empty subject
list (so no subject has a score), the insight requester returns the
key-missing insight, not the fixed no-data placeholder the claim names. -/
theorem generateAcademicInsight_no_scores_counterexample :
    (generateAcademicInsight "" [] errorEnv).1 ≠ noDataInsight := by
  decide

/-- C3 as amended: when no subject has at least one score, no network request
is issued; the result is the fixed no-data placeholder when the credential is
configured and the fixed key-missing insight when it is not. -/
theorem generateAcademicInsight_no_scores (apiKey : String) (subjects : List Subject)
    (env : GenEnv) (h : ∀ s ∈ subjects, s.scores = []) :
    (generateAcademicInsight apiKey subjects env).2 = false ∧
    (¬apiKey = "" → (generateAcademicInsight apiKey subjects env).1 = noDataInsight) ∧
    (apiKey = "" → (generateAcademicInsight apiKey subjects env).1 = keyMissingInsight) := by
  have hact : (activeSubjects subjects).length = 0 := by
    unfold activeSubjects
    rw [List.length_map, List.length_eq_zero, List.filter_eq_nil_iff]
    intro s hs
    simp [h s hs]
  unfold generateAcademicInsight
  rcases eq_or_ne apiKey "" with hk | hk
  · rw [if_pos hk]
    exact ⟨rfl, fun hne => absurd hk hne, fun _ => rfl⟩
  · rw [if_neg hk, if_pos hact]
    exact ⟨rfl, fun _ => rfl, fun heq => absurd heq hk⟩

/-- C3 witness: `generateAcademicInsight_no_scores` at a configured key and a
concrete subject list whose only subject has no scores. -/
theorem generateAcademicInsight_no_scores_witness :
    (generateAcademicInsight "key" [emptySubjectC] errorEnv).2 = false ∧
    (¬("key" : String) = "" →
      (generateAcademicInsight "key" [emptySubjectC] errorEnv).1 = noDataInsight) ∧
    (("key" : String) = "" →
      (generateAcademicInsight "key" [emptySubjectC] errorEnv).1 = keyMissingInsight) :=
  generateAcademicInsight_no_scores "key" [emptySubjectC] errorEnv (by decide)

/-- C4: whenever the insight request fails — the credential is missing, or the
issued request throws, returns no or empty text, or returns unparsable text —
the requester returns one of its fixed fallback insight records; being a total
function, it propagates no error. -/
theorem generateAcademicInsight_failure_fallback (apiKey : String)
    (subjects : List Subject) (env : GenEnv)
    (h : apiKey = "" ∨
      (envFails env ∧ (generateAcademicInsight apiKey subjects env).2 = true)) :
    (generateAcademicInsight apiKey subjects env).1 = keyMissingInsight ∨
    (generateAcademicInsight apiKey subjects env).1 = fallbackInsight := by
  rcases h with hk | ⟨hfail, hcall⟩
  · left
    unfold generateAcademicInsight
    rw [if_pos hk]
  · right
    unfold generateAcademicInsight at hcall ⊢
    rcases eq_or_ne apiKey "" with hk | hk
    · rw [if_pos hk] at hcall
      exact absurd hcall (by simp)
    · rw [if_neg hk] at hcall ⊢
      rcases eq_or_ne (activeSubjects subjects).length 0 with hact | hact
      · rw [if_pos hact] at hcall
        exact absurd hcall (by simp)
      · rw [if_neg hact]
        rcases hfail with h1 | h1 | ⟨t, ht, h2⟩
        · rw [h1]
        · rw [h1]
        · rcases h2 with h2 | h2
          · rw [ht]
            simp [h2]
          · rcases eq_or_ne t "" with he | he
            · rw [ht]
              simp [he]
            · rw [ht]
              simp [he, h2]

/-- C4 witness: `generateAcademicInsight_failure_fallback` with the credential
missing at a concrete input. -/
theorem generateAcademicInsight_failure_fallback_witness :
    (generateAcademicInsight "" exampleSubjects errorEnv).1 = keyMissingInsight ∨
    (generateAcademicInsight "" exampleSubjects errorEnv).1 = fallbackInsight :=
  generateAcademicInsight_failure_fallback "" exampleSubjects errorEnv (Or.inl rfl)

end ScholarTrack
